import Mathlib

/-!
# Verification of the MT5 mean-reversion scalper (`mt5_scalper.py`)

Shallow embedding of the pure decision logic of the bot: configuration
constants, the z-score guard, the safety filter chain, position sizing,
daily bookkeeping, and one iteration of the main loop as a step function
on the process-wide state.

Modelling conventions:
* Python floats are embedded as exact rationals (`ℚ`); decimal literals
  such as `0.003` denote the exact rational the source text writes.
* `datetime` values are embedded as seconds since an epoch (`ℕ`);
  `date` is the day number `t / 86400`, `hour` is `t % 86400 / 3600`,
  and Python's `timedelta.seconds` of a nonnegative delta is
  `(now - then) % 86400` (the seconds component with whole days stripped).
* Broker-supplied data (account equity, bars, tick, symbol metadata,
  open positions, order acceptance) are inputs of the step function.
* The z-score and the rolling volatility reaching `safety_check` are
  computed by the source through floating-point square roots; the step
  function takes their values as inputs (`z`, `vol`), quantified over in
  every theorem, while the guard structure of `zscore` itself is embedded
  below parametrically in the square-root routine.
-/

namespace MT5Scalper

/-! ## Configuration constants (`CONFIG` block of the source) -/

def LOOKBACK : ℕ := 120

def Z_ENTER : ℚ := 1.2

def Z_EXIT : ℚ := 0.3

def RISK_PER_TRADE : ℚ := 0.003

def MAX_DAILY_LOSS : ℚ := 0.02

def MAX_LOSS_STREAK : ℕ := 3

def VOL_MAX : ℚ := 0.004

def SPREAD_MAX : ℚ := 50

def MIN_TRADE_INTERVAL : ℕ := 180

def DRY_RUN : Bool := true

def TRADE_HOURS : ℕ × ℕ := (8, 22)

/-! ## Time arithmetic -/

/-- Day number of an epoch-second timestamp (Python `datetime.date()`). -/
def dateOf (t : ℕ) : ℕ := t / 86400

/-- Hour-of-day of an epoch-second timestamp (Python `datetime.hour`). -/
def hourOf (t : ℕ) : ℕ := t % 86400 / 3600

/-! ## Data model -/

/-- One OHLC bar; the source only reads `high`, `low` and `close`. -/
structure Bar where
  high : ℚ
  low : ℚ
  close : ℚ
  deriving DecidableEq

/-- Current quote (`mt5.symbol_info_tick`). -/
structure Tick where
  bid : ℚ
  ask : ℚ
  deriving DecidableEq

/-- Instrument metadata (`mt5.symbol_info`), the fields the source reads. -/
structure SymbolInfo where
  trade_tick_value : ℚ
  trade_tick_size : ℚ
  volume_min : ℚ
  volume_max : ℚ
  volume_step : ℚ
  point : ℚ
  deriving DecidableEq

/-- An open position as returned by `mt5.positions_get`:
`type = 0` is a long (`POSITION_TYPE_BUY`), anything else a short. -/
structure Position where
  type : ℕ
  volume : ℚ
  deriving DecidableEq

inductive Side where
  | buy
  | sell
  deriving DecidableEq

/-- The order request dictionary built by `send_order` (the fields the
claims are about; `sl`/`tp` are `none` when the source passes `None`). -/
structure OrderReq where
  side : Side
  volume : ℚ
  price : ℚ
  sl : Option ℚ
  tp : Option ℚ
  deriving DecidableEq

/-- The observable effect of one `send_order` call: the request that was
built, whether the call reported success, and whether the request was
actually dispatched to the broker (`mt5.order_send`). -/
structure Sent where
  req : OrderReq
  success : Bool
  dispatched : Bool
  deriving DecidableEq

/-- The process-wide mutable state of the loop (`STATE` block). -/
structure ScalperState where
  last_trade_time : Option ℕ
  loss_streak : ℕ
  peak_equity : Option ℚ
  start_equity : Option ℚ
  day_start : ℕ
  deriving DecidableEq

/-- Initial state of the process: started on day `d0` with no trade yet. -/
def initState (d0 : ℕ) : ScalperState :=
  { last_trade_time := none
    loss_streak := 0
    peak_equity := none
    start_equity := none
    day_start := d0 }

/-! ## Signal engine (`zscore`, lines 80-84) -/

/-- `series.mean()`; the source never calls it on an empty series. -/
def mean (xs : List ℚ) : ℚ := xs.sum / xs.length

/-- `series.std()` squared: the sample variance with `ddof = 1`
(pandas default), `none` standing for pandas' `NaN` when fewer than two
observations exist.  `std == 0 or isnan(std)` in the source is exactly
`sampleVar = some 0 or none` since `std = sqrt (sampleVar)`. -/
def sampleVar (xs : List ℚ) : Option ℚ :=
  if xs.length < 2 then none
  else some ((xs.map (fun x => (x - mean xs) ^ 2)).sum / (xs.length - 1 : ℕ))

/-- `zscore(series)`, parametric in the square-root routine `sqrt` the
floating-point `series.std()` uses: return `0` whenever the standard
deviation is zero or undefined, else `(series.iloc[-1] - series.mean()) / std`. -/
def zscoreWith (sqrt : ℚ → ℚ) (xs : List ℚ) : ℚ :=
  match sampleVar xs with
  | none => 0
  | some v => if v = 0 then 0 else (xs.getLast! - mean xs) / sqrt v

/-! ## Safety filters (`safety_check`, lines 94-118)

The rolling volatility `df['close'].pct_change().rolling(20).std().iloc[-1]`
is a floating-point standard deviation; it enters here as the abstract
input `vol : Option ℚ` (`none` = pandas `NaN`, for which `vol > VOL_MAX`
is false in Python).  The four checks appear in source order, each
returning immediately on failure. -/

def safety_check (ltt : Option ℕ) (now : ℕ) (vol : Option ℚ) (tick : Tick)
    (point : ℚ) : Bool × String :=
  if ¬ (TRADE_HOURS.1 ≤ hourOf now ∧ hourOf now ≤ TRADE_HOURS.2) then
    (false, "outside trade hours")
  else if (match ltt with
           | some lt => decide ((now - lt) % 86400 < MIN_TRADE_INTERVAL)
           | none => false) then
    (false, "cooldown")
  else if (match vol with
           | some v => decide (v > VOL_MAX)
           | none => false) then
    (false, "volatility too high")
  else if tick.ask - tick.bid > SPREAD_MAX * point then
    (false, "spread too wide")
  else
    (true, "ok")

/-! ## Position sizing (`compute_lot`, lines 124-136) -/

/-- Python's `round(x, 8)`.  (CPython rounds ties to even, Mathlib's
`round` rounds ties up; the two agree away from exact half-way points,
and every use below is at an exact multiple of `10⁻⁸` where both are the
identity.) -/
def round8 (q : ℚ) : ℚ := (round (q * 10 ^ 8) : ℚ) / 10 ^ 8

def compute_lot (info : SymbolInfo) (equity stop_dist : ℚ) : ℚ :=
  let value_per_price := info.trade_tick_value / info.trade_tick_size
  let risk_amount := equity * RISK_PER_TRADE
  let lots0 := risk_amount / (stop_dist * value_per_price)
  let lots := max info.volume_min (min info.volume_max lots0)
  let step := info.volume_step
  round8 ((⌊lots / step⌋ : ℚ) * step)

/-! ## Execution (`send_order`, lines 142-165) -/

/-- One `send_order` call.  `brokerOk` abstracts the broker's verdict
(`result.retcode == TRADE_RETCODE_DONE`); in dry-run mode the request is
only logged: the call reports success and nothing is dispatched. -/
def send_order (dryRun brokerOk : Bool) (tick : Tick) (side : Side)
    (volume : ℚ) (sl tp : Option ℚ) : Sent :=
  let price := match side with
    | Side.buy => tick.ask
    | Side.sell => tick.bid
  let req : OrderReq :=
    { side := side, volume := volume, price := price, sl := sl, tp := tp }
  if dryRun then { req := req, success := true, dispatched := false }
  else { req := req, success := brokerOk, dispatched := true }

/-! ## Main loop: one iteration (`run`, lines 179-240) -/

/-- `rolling(w).mean().iloc[-1]`: mean of the last `w` entries, `none`
(pandas `NaN`) when fewer than `w` entries exist. -/
def rollingMeanLast (w : ℕ) (xs : List ℚ) : Option ℚ :=
  if xs.length < w then none
  else some ((xs.drop (xs.length - w)).sum / (w : ℚ))

/-- Lines 181-189: first-iteration initialisation of `start_equity` and
`peak_equity`, then the daily reset of `day_start`, `start_equity` and
`loss_streak`. -/
def daily_bookkeeping (st : ScalperState) (equity : ℚ) (today : ℕ) :
    ScalperState :=
  let st' :=
    if st.start_equity = none then
      { st with start_equity := some equity, peak_equity := some equity }
    else st
  if today ≠ st'.day_start then
    { st' with day_start := today, start_equity := some equity,
               loss_streak := 0 }
  else st'

/-- What one iteration of the loop did after the bookkeeping. -/
inductive Outcome where
  | dailyLossStop
  | lossStreakLock
  | gateFail (reason : String)
  | decided
  deriving DecidableEq

/-- The broker-supplied and derived inputs of one iteration. -/
structure IterInput where
  equity : ℚ
  now : ℕ
  bars : List Bar
  vol : Option ℚ
  z : ℚ
  tick : Tick
  info : SymbolInfo
  positions : List Position
  dryRun : Bool
  brokerOk : Bool
  deriving DecidableEq

structure StepResult where
  state : ScalperState
  outcome : Outcome
  orders : List Sent
  deriving DecidableEq

/-- Lines 215-238 of the source: the entry/exit decision taken once the
breakers and the safety gate have passed, on the state `st1` left by the
bookkeeping.  When fewer than 20 bars are available pandas would make
`atr` (hence `stop_dist`) `NaN`; no claim concerns that degenerate case
and the model then falls back to the `price * 0.001` leg of the `max`. -/
def entry_exit (st1 : ScalperState) (inp : IterInput) : StepResult :=
  if inp.positions ≠ [] ∧ |inp.z| ≤ Z_EXIT then
    let orders := inp.positions.map (fun p =>
      send_order inp.dryRun inp.brokerOk inp.tick
        (if p.type = 0 then Side.sell else Side.buy) p.volume none none)
    { state := { st1 with last_trade_time := some inp.now }
      outcome := Outcome.decided
      orders := orders }
  else if inp.positions = [] then
    let price := (inp.bars.map Bar.close).getLast!
    let atr := rollingMeanLast 20
      (inp.bars.map (fun b => b.high - b.low))
    let stop_dist := match atr with
      | some a => max a (price * 0.001)
      | none => price * 0.001
    if inp.z ≥ Z_ENTER then
      let lots := compute_lot inp.info inp.equity stop_dist
      { state := { st1 with last_trade_time := some inp.now }
        outcome := Outcome.decided
        orders := [send_order inp.dryRun inp.brokerOk inp.tick Side.sell
          lots (some (price + stop_dist))
          (some (price - stop_dist * 1.5))] }
    else if inp.z ≤ -Z_ENTER then
      let lots := compute_lot inp.info inp.equity stop_dist
      { state := { st1 with last_trade_time := some inp.now }
        outcome := Outcome.decided
        orders := [send_order inp.dryRun inp.brokerOk inp.tick Side.buy
          lots (some (price - stop_dist))
          (some (price + stop_dist * 1.5))] }
    else
      { state := st1, outcome := Outcome.decided, orders := [] }
  else
    { state := st1, outcome := Outcome.decided, orders := [] }

/-- One iteration of the `while True` body (the non-exceptional path),
lines 179-240 of the source.  After `daily_bookkeeping` the
`start_equity` field is always set, so `Option.getD 0` below never takes
its default. -/
def scalper_step (st : ScalperState) (inp : IterInput) : StepResult :=
  let st1 := daily_bookkeeping st inp.equity (dateOf inp.now)
  let s := st1.start_equity.getD 0
  if (s - inp.equity) / s > MAX_DAILY_LOSS then
    { state := st1, outcome := Outcome.dailyLossStop, orders := [] }
  else if MAX_LOSS_STREAK ≤ st1.loss_streak then
    { state := st1, outcome := Outcome.lossStreakLock, orders := [] }
  else
    let gate := safety_check st1.last_trade_time inp.now inp.vol inp.tick
      inp.info.point
    if gate.1 = false then
      { state := st1, outcome := Outcome.gateFail gate.2, orders := [] }
    else
      entry_exit st1 inp

/-- States reachable by the main loop from process start. -/
inductive Reachable : ScalperState → Prop where
  | init (d0 : ℕ) : Reachable (initState d0)
  | step (st : ScalperState) (inp : IterInput) :
      Reachable st → Reachable (scalper_step st inp).state

/-! ## Helper lemmas -/

lemma mean_replicate (n : ℕ) (c : ℚ) (h : 0 < n) :
    mean (List.replicate n c) = c := by
  have hn : (n : ℚ) ≠ 0 := by exact_mod_cast h.ne'
  rw [mean, List.sum_replicate, List.length_replicate, nsmul_eq_mul,
    mul_div_cancel_left₀ _ hn]

lemma sampleVar_replicate (n : ℕ) (c : ℚ) :
    sampleVar (List.replicate n c) = none ∨
      sampleVar (List.replicate n c) = some 0 := by
  by_cases hn : n < 2
  · exact Or.inl (by simp [sampleVar, hn])
  · refine Or.inr ?_
    have hm : mean (List.replicate n c) = c := mean_replicate n c (by omega)
    simp [sampleVar, hn, hm]

/-! ## Concrete fixtures for witnesses -/

/-- A well-formed instrument: tick value and size `1`,
`volume_min = volume_step = 0.01`, `volume_max = 100`, point `1`. -/
def sampleInfo : SymbolInfo :=
  { trade_tick_value := 1, trade_tick_size := 1, volume_min := 1/100,
    volume_max := 100, volume_step := 1/100, point := 1 }

/-- Twenty identical bars with range `1` and close `100`. -/
def sampleBars : List Bar := List.replicate 20 { high := 101, low := 100, close := 100 }

/-- A day-0 state with start-of-day equity `10000` and no trade yet. -/
def sampleState : ScalperState :=
  { last_trade_time := none, loss_streak := 0, peak_equity := some 10000,
    start_equity := some 10000, day_start := 0 }

/-- An iteration input at 10:00 on day 0 with a zero-spread quote,
benign volatility data, dry run on and a cooperative broker. -/
def sampleInput (equity z : ℚ) (positions : List Position) : IterInput :=
  { equity := equity, now := 36000, bars := sampleBars, vol := none,
    z := z, tick := { bid := 100, ask := 100 }, info := sampleInfo,
    positions := positions, dryRun := true, brokerOk := true }

/-! ## Claims -/

lemma round8_eq_self (q : ℚ) (m : ℤ) (h : q * 10 ^ 8 = m) : round8 q = q := by
  rw [round8, h, round_intCast, ← h,
    mul_div_cancel_right₀ _ (by norm_num : ((10:ℚ) ^ 8) ≠ 0)]

/-- C1 counterexample: for symbol metadata whose `volume_min = 1` is not
a multiple of `volume_step = 2` (tick value, tick size and point all
`1`, `volume_max = 100`), equity `1 > 0` and stop distance `1 > 0`,
`compute_lot` returns `0`: strictly below `volume_min`, so the claimed
lower bound fails as stated. -/
theorem compute_lot_below_min_counterexample :
    (0:ℚ) < 1 ∧
    compute_lot ⟨1, 1, 1, 100, 2, 1⟩ 1 1 = 0 ∧
    compute_lot ⟨1, 1, 1, 100, 2, 1⟩ 1 1 <
      (SymbolInfo.mk 1 1 1 100 2 1).volume_min := by
  have h : compute_lot ⟨1, 1, 1, 100, 2, 1⟩ 1 1 = 0 := by
    show round8
      ((⌊max (1:ℚ) (min 100 (1 * RISK_PER_TRADE / (1 * ((1:ℚ) / 1)))) / 2⌋ : ℚ) * 2) = 0
    have h1 : max (1:ℚ) (min 100 (1 * RISK_PER_TRADE / (1 * ((1:ℚ) / 1)))) = 1 := by
      norm_num [RISK_PER_TRADE]
    rw [h1]
    have h2 : (⌊(1:ℚ)/2⌋ : ℤ) = 0 := by
      rw [Int.floor_eq_zero_iff, Set.mem_Ico]
      constructor <;> norm_num
    rw [h2]
    norm_num [round8]
  refine ⟨by norm_num, h, ?_⟩
  rw [h]
  norm_num

/-- C1 amended: for every equity `E > 0` and stop distance `D > 0`, and
well-formed symbol metadata — positive `volume_step`,
`volume_min ≤ volume_max`, `volume_min` itself a multiple of
`volume_step`, and `volume_step` an integral multiple of `10⁻⁸` (so the
final `round(·, 8)` is exact) — `compute_lot` returns a volume within
`[volume_min, volume_max]` that is an exact multiple of `volume_step`;
in particular it never returns a value below the exchange minimum even
when the risk-derived size would be smaller. -/
theorem compute_lot_bounds (info : SymbolInfo) (E D : ℚ)
    (hE : 0 < E) (hD : 0 < D)
    (hstep : 0 < info.volume_step)
    (hmm : info.volume_min ≤ info.volume_max)
    (hdvd : ∃ m : ℤ, info.volume_min = m * info.volume_step)
    (hden : ∃ s : ℤ, info.volume_step * 10 ^ 8 = s) :
    info.volume_min ≤ compute_lot info E D ∧
    compute_lot info E D ≤ info.volume_max ∧
    ∃ k : ℤ, compute_lot info E D = k * info.volume_step := by
  obtain ⟨m, hm⟩ := hdvd
  obtain ⟨s, hs⟩ := hden
  set lots0 := E * RISK_PER_TRADE /
    (D * (info.trade_tick_value / info.trade_tick_size)) with hlots0
  set lots := max info.volume_min (min info.volume_max lots0) with hlots
  have h1 : info.volume_min ≤ lots := le_max_left _ _
  have h2 : lots ≤ info.volume_max := max_le hmm (min_le_left _ _)
  set k : ℤ := ⌊lots / info.volume_step⌋ with hk
  have hcl : compute_lot info E D = (k : ℚ) * info.volume_step := by
    have : ((k : ℚ) * info.volume_step) * 10 ^ 8 = ((k * s : ℤ) : ℚ) := by
      push_cast
      rw [mul_assoc, hs]
    simp only [compute_lot]
    exact round8_eq_self _ _ this
  have hmk : (m : ℚ) ≤ k := by
    exact_mod_cast Int.le_floor.mpr ((le_div_iff₀ hstep).mpr (hm ▸ h1))
  have hlow : info.volume_min ≤ (k : ℚ) * info.volume_step := by
    rw [hm]
    exact mul_le_mul_of_nonneg_right hmk hstep.le
  have hhigh : (k : ℚ) * info.volume_step ≤ info.volume_max := by
    have hfl : (k : ℚ) * info.volume_step ≤ lots := by
      have := Int.floor_le (lots / info.volume_step)
      calc (k : ℚ) * info.volume_step
          ≤ lots / info.volume_step * info.volume_step :=
            mul_le_mul_of_nonneg_right this hstep.le
        _ = lots := div_mul_cancel₀ _ hstep.ne'
    exact hfl.trans h2
  exact ⟨hcl ▸ hlow, hcl ▸ hhigh, k, hcl⟩

/-- C1 witness: with tick value `1`, tick size `1`,
`volume_min = volume_step = 0.01`, `volume_max = 100`, equity `10000`
and stop distance `1`, the computed lot lies within the volume bounds
and is a multiple of the step. -/
theorem compute_lot_bounds_witness :
    (SymbolInfo.mk 1 1 (1/100) 100 (1/100) 1).volume_min ≤
      compute_lot ⟨1, 1, 1/100, 100, 1/100, 1⟩ 10000 1 ∧
    compute_lot ⟨1, 1, 1/100, 100, 1/100, 1⟩ 10000 1 ≤
      (SymbolInfo.mk 1 1 (1/100) 100 (1/100) 1).volume_max ∧
    ∃ k : ℤ, compute_lot ⟨1, 1, 1/100, 100, 1/100, 1⟩ 10000 1 =
      k * (SymbolInfo.mk 1 1 (1/100) 100 (1/100) 1).volume_step :=
  compute_lot_bounds ⟨1, 1, 1/100, 100, 1/100, 1⟩ 10000 1
    (by norm_num) (by norm_num) (by norm_num) (by norm_num)
    ⟨1, by norm_num⟩ ⟨1000000, by norm_num⟩

/-- C7: the z-score of a perfectly flat price series is `0`, and more
generally whenever the standard deviation of the series is zero or
undefined (`sampleVar` is `some 0` or `none`), `zscore` returns exactly
`0` — for every square-root routine the floating-point `std` may use. -/
theorem zscore_flat_eq_zero (sqrt : ℚ → ℚ) :
    (∀ xs : List ℚ, sampleVar xs = none ∨ sampleVar xs = some 0 →
      zscoreWith sqrt xs = 0) ∧
    (∀ (n : ℕ) (c : ℚ), zscoreWith sqrt (List.replicate n c) = 0) := by
  have base : ∀ xs : List ℚ, sampleVar xs = none ∨ sampleVar xs = some 0 →
      zscoreWith sqrt xs = 0 := by
    intro xs h
    rcases h with h | h <;> simp [zscoreWith, h]
  exact ⟨base, fun n c => base _ (sampleVar_replicate n c)⟩

/-- C7 witness: the flat series `[1, 1, 1]` has z-score `0` (with the
identity as the square-root routine). -/
theorem zscore_flat_eq_zero_witness : zscoreWith id [1, 1, 1] = 0 :=
  (zscore_flat_eq_zero id).1 [1, 1, 1]
    (Or.inr (by norm_num [sampleVar, mean]))

lemma daily_bookkeeping_same_day (st : ScalperState) (e : ℚ) (s : ℚ)
    (today : ℕ) (h1 : st.start_equity = some s) (h2 : st.day_start = today) :
    daily_bookkeeping st e today = st := by
  simp [daily_bookkeeping, h1, h2]

/-- C5: whenever the current date differs from the stored day marker,
one call of the bookkeeping resets `start_equity` to the current equity,
resets `loss_streak` to `0` and sets the day marker to the current date;
and the bookkeeping is idempotent within a day: a second call on the
same date (at any equity) changes nothing. -/
theorem daily_rollover_once_and_idempotent :
    (∀ (st : ScalperState) (e : ℚ) (today : ℕ), today ≠ st.day_start →
        (daily_bookkeeping st e today).day_start = today ∧
        (daily_bookkeeping st e today).start_equity = some e ∧
        (daily_bookkeeping st e today).loss_streak = 0) ∧
    (∀ (st : ScalperState) (e e' : ℚ) (today : ℕ),
        daily_bookkeeping (daily_bookkeeping st e today) e' today =
          daily_bookkeeping st e today) := by
  constructor
  · intro st e today h
    unfold daily_bookkeeping
    split_ifs <;> simp_all
  · intro st e e' today
    have hday : (daily_bookkeeping st e today).day_start = today := by
      unfold daily_bookkeeping
      by_cases h1 : st.start_equity = none <;>
        by_cases h2 : today = st.day_start <;> simp [h1, h2]
    have hsome : ∃ s, (daily_bookkeeping st e today).start_equity = some s := by
      unfold daily_bookkeeping
      cases hse : st.start_equity with
      | none => by_cases h2 : today = st.day_start <;> simp [hse, h2]
      | some s0 => by_cases h2 : today = st.day_start <;> simp [hse, h2]
    obtain ⟨s, hs⟩ := hsome
    exact daily_bookkeeping_same_day _ e' s today hs hday

/-- C5 witness: at a fresh state created on day `0`, bookkeeping on day
`1` with equity `10000` sets the marker to day `1`, `start_equity` to
`10000` and `loss_streak` to `0`. -/
theorem daily_rollover_once_and_idempotent_witness :
    (daily_bookkeeping (initState 0) 10000 1).day_start = 1 ∧
    (daily_bookkeeping (initState 0) 10000 1).start_equity = some 10000 ∧
    (daily_bookkeeping (initState 0) 10000 1).loss_streak = 0 :=
  (daily_rollover_once_and_idempotent).1 (initState 0) 10000 1 (by decide)

lemma entry_exit_outcome (st1 : ScalperState) (inp : IterInput) :
    (entry_exit st1 inp).outcome = Outcome.decided := by
  unfold entry_exit
  split_ifs <;> rfl

lemma scalper_step_same_day (st : ScalperState) (inp : IterInput) (s : ℚ)
    (h1 : st.start_equity = some s) (h2 : st.day_start = dateOf inp.now) :
    scalper_step st inp =
      if (s - inp.equity) / s > MAX_DAILY_LOSS then
        { state := st, outcome := Outcome.dailyLossStop, orders := [] }
      else if MAX_LOSS_STREAK ≤ st.loss_streak then
        { state := st, outcome := Outcome.lossStreakLock, orders := [] }
      else if (safety_check st.last_trade_time inp.now inp.vol inp.tick
          inp.info.point).1 = false then
        { state := st,
          outcome := Outcome.gateFail (safety_check st.last_trade_time
            inp.now inp.vol inp.tick inp.info.point).2,
          orders := [] }
      else entry_exit st inp := by
  unfold scalper_step
  rw [daily_bookkeeping_same_day st inp.equity s _ h1 h2]
  simp only [h1, Option.getD_some]

lemma scalper_step_decision (st : ScalperState) (inp : IterInput) (s : ℚ)
    (h1 : st.start_equity = some s) (h2 : st.day_start = dateOf inp.now)
    (hdl : ¬ (MAX_DAILY_LOSS < (s - inp.equity) / s))
    (hls : st.loss_streak < MAX_LOSS_STREAK)
    (hgate : (safety_check st.last_trade_time inp.now inp.vol inp.tick
      inp.info.point).1 = true) :
    scalper_step st inp = entry_exit st inp := by
  rw [scalper_step_same_day st inp s h1 h2, if_neg hdl,
    if_neg (by omega), if_neg (by simp [hgate])]

/-- C2: with the day marker current and a positive start-of-day equity
`s`, the daily-loss breaker trips exactly when
`(s − equity) / s > MAX_DAILY_LOSS` (strict comparison), and when it
trips the iteration stops there: no orders, no state change.  At a loss
of exactly the threshold it does not trip; strictly above, it does. -/
theorem daily_loss_breaker_iff (st : ScalperState) (inp : IterInput) (s : ℚ)
    (h1 : st.start_equity = some s) (h2 : st.day_start = dateOf inp.now)
    (hs : 0 < s) :
    ((scalper_step st inp).outcome = Outcome.dailyLossStop ↔
      MAX_DAILY_LOSS < (s - inp.equity) / s) ∧
    (MAX_DAILY_LOSS < (s - inp.equity) / s →
      scalper_step st inp =
        { state := st, outcome := Outcome.dailyLossStop, orders := [] }) := by
  rw [scalper_step_same_day st inp s h1 h2]
  by_cases hc : MAX_DAILY_LOSS < (s - inp.equity) / s
  · rw [if_pos hc]
    exact ⟨by simp [hc], fun _ => rfl⟩
  · rw [if_neg hc]
    refine ⟨⟨fun h => ?_, fun h => absurd h hc⟩, fun h => absurd h hc⟩
    exfalso
    revert h
    split_ifs <;> simp [entry_exit_outcome]

/-- C2 witness: with start-of-day equity `10000` and
`MAX_DAILY_LOSS = 0.02`, at equity `9790` (loss 2.1%) the breaker trips,
and at equity `9800` (loss exactly 2.0%) it does not. -/
theorem daily_loss_breaker_iff_witness :
    (scalper_step sampleState (sampleInput 9790 0 [])).outcome =
      Outcome.dailyLossStop ∧
    ¬ ((scalper_step sampleState (sampleInput 9800 0 [])).outcome =
      Outcome.dailyLossStop) :=
  ⟨(daily_loss_breaker_iff sampleState (sampleInput 9790 0 []) 10000
      rfl rfl (by norm_num)).1.mpr (by norm_num [sampleInput, MAX_DAILY_LOSS]),
   fun h => absurd ((daily_loss_breaker_iff sampleState
      (sampleInput 9800 0 []) 10000 rfl rfl (by norm_num)).1.mp h)
      (by norm_num [sampleInput, MAX_DAILY_LOSS])⟩

/-- C6: the safety gate evaluates trading hours first and short-circuits:
whenever the current hour is outside the inclusive trading-hours window
it fails with the trading-hours reason, whatever the cooldown state, the
bar data and the quote; and any gate failure ends the iteration with no
entry/exit logic: the step returns the gate's failure reason and an
empty order list, leaving the state untouched. -/
theorem safety_gate_short_circuit :
    (∀ (ltt : Option ℕ) (now : ℕ) (vol : Option ℚ) (tick : Tick) (point : ℚ),
        ¬ (TRADE_HOURS.1 ≤ hourOf now ∧ hourOf now ≤ TRADE_HOURS.2) →
        safety_check ltt now vol tick point = (false, "outside trade hours")) ∧
    (∀ (st : ScalperState) (inp : IterInput) (s : ℚ),
        st.start_equity = some s → st.day_start = dateOf inp.now →
        ¬ (MAX_DAILY_LOSS < (s - inp.equity) / s) →
        st.loss_streak < MAX_LOSS_STREAK →
        (safety_check st.last_trade_time inp.now inp.vol inp.tick
          inp.info.point).1 = false →
        scalper_step st inp =
          { state := st,
            outcome := Outcome.gateFail (safety_check st.last_trade_time
              inp.now inp.vol inp.tick inp.info.point).2,
            orders := [] }) := by
  constructor
  · intro ltt now vol tick point h
    unfold safety_check
    rw [if_pos h]
  · intro st inp s h1 h2 hdl hls hgate
    rw [scalper_step_same_day st inp s h1 h2, if_neg hdl,
      if_neg (by omega), if_pos hgate]

/-- C6 witness: at 23:00 (outside the 8-22 window) the gate reports the
trading-hours failure even with a cooldown pending, and when the gate
fails (here by cooldown at 10:00, 100 seconds after a trade) the step
produces no orders and reports the gate's reason. -/
theorem safety_gate_short_circuit_witness :
    safety_check (some 82790) 82800 none ⟨100, 100⟩ 1 =
      (false, "outside trade hours") ∧
    scalper_step
      { sampleState with last_trade_time := some 36000 }
      { sampleInput 10000 0 [] with now := 36100 } =
      { state := { sampleState with last_trade_time := some 36000 },
        outcome := Outcome.gateFail "cooldown",
        orders := [] } :=
  ⟨(safety_gate_short_circuit).1 (some 82790) 82800 none ⟨100, 100⟩ 1
      (by decide),
   (safety_gate_short_circuit).2
      { sampleState with last_trade_time := some 36000 }
      { sampleInput 10000 0 [] with now := 36100 } 10000 rfl rfl
      (by norm_num [sampleInput, MAX_DAILY_LOSS]) (by decide) (by decide)⟩

/-- C4: with breakers and gate passed and at least one open position, if
`|z| ≤ Z_EXIT` every open position is closed with a market order on the
opposite side of the position (sell for a long `type = 0`, buy for a
short) of exactly the position's volume, with no stop-loss and no
take-profit; if `|z| > Z_EXIT` the position is held and no order is
sent. -/
theorem exit_on_weak_signal (st : ScalperState) (inp : IterInput) (s : ℚ)
    (h1 : st.start_equity = some s) (h2 : st.day_start = dateOf inp.now)
    (hdl : ¬ (MAX_DAILY_LOSS < (s - inp.equity) / s))
    (hls : st.loss_streak < MAX_LOSS_STREAK)
    (hgate : (safety_check st.last_trade_time inp.now inp.vol inp.tick
      inp.info.point).1 = true)
    (hpos : inp.positions ≠ []) :
    (|inp.z| ≤ Z_EXIT →
      (scalper_step st inp).orders = inp.positions.map (fun p =>
        send_order inp.dryRun inp.brokerOk inp.tick
          (if p.type = 0 then Side.sell else Side.buy) p.volume none none)) ∧
    (Z_EXIT < |inp.z| → (scalper_step st inp).orders = []) := by
  rw [scalper_step_decision st inp s h1 h2 hdl hls hgate]
  unfold entry_exit
  constructor
  · intro hz
    rw [if_pos ⟨hpos, hz⟩]
  · intro hz
    rw [if_neg (fun h => absurd h.2 (not_le.mpr hz)), if_neg hpos]

/-- C4 witness: an open long position of volume `2` and z-score `0.2`
with exit threshold `0.3` produce exactly one opposite-side (sell)
closing order of volume `2` with no stop-loss and no take-profit. -/
theorem exit_on_weak_signal_witness :
    (scalper_step sampleState (sampleInput 10000 (1/5) [⟨0, 2⟩])).orders =
      (sampleInput 10000 (1/5) [⟨0, 2⟩]).positions.map (fun p =>
        send_order (sampleInput 10000 (1/5) [⟨0, 2⟩]).dryRun
          (sampleInput 10000 (1/5) [⟨0, 2⟩]).brokerOk
          (sampleInput 10000 (1/5) [⟨0, 2⟩]).tick
          (if p.type = 0 then Side.sell else Side.buy) p.volume none none) :=
  (exit_on_weak_signal sampleState (sampleInput 10000 (1/5) [⟨0, 2⟩]) 10000
      rfl (by decide) (by norm_num [sampleInput, MAX_DAILY_LOSS]) (by decide)
      (by norm_num [safety_check, sampleInput, sampleState, sampleInfo,
        hourOf, TRADE_HOURS, SPREAD_MAX])
      (by decide)).1
    (by norm_num [sampleInput, Z_EXIT, abs_of_nonneg])

/-- C3: with breakers and gate passed, no open position, `z ≥ Z_ENTER`
and dry run enabled, the step produces exactly one synthetic sell-order
report at the bid whose stop-loss is `price + stop_dist` and take-profit
`price − 1.5 × stop_dist`, where `price` is the last close and
`stop_dist = max (mean of high − low over the last 20 bars)
(0.1% of price)`; the order is not dispatched to the broker and
`send_order` reports success. -/
theorem dry_run_entry_report (st : ScalperState) (inp : IterInput) (s a : ℚ)
    (h1 : st.start_equity = some s) (h2 : st.day_start = dateOf inp.now)
    (hdl : ¬ (MAX_DAILY_LOSS < (s - inp.equity) / s))
    (hls : st.loss_streak < MAX_LOSS_STREAK)
    (hgate : (safety_check st.last_trade_time inp.now inp.vol inp.tick
      inp.info.point).1 = true)
    (hpos : inp.positions = [])
    (hz : inp.z ≥ Z_ENTER)
    (hdry : inp.dryRun = true)
    (hatr : rollingMeanLast 20 (inp.bars.map (fun b => b.high - b.low)) =
      some a) :
    (scalper_step st inp).orders =
      [{ req := { side := Side.sell,
                  volume := compute_lot inp.info inp.equity
                    (max a ((inp.bars.map Bar.close).getLast! * 0.001)),
                  price := inp.tick.bid,
                  sl := some ((inp.bars.map Bar.close).getLast! +
                    max a ((inp.bars.map Bar.close).getLast! * 0.001)),
                  tp := some ((inp.bars.map Bar.close).getLast! -
                    max a ((inp.bars.map Bar.close).getLast! * 0.001) * 1.5) },
           success := true, dispatched := false }] := by
  rw [scalper_step_decision st inp s h1 h2 hdl hls hgate]
  unfold entry_exit
  rw [if_neg (fun h => absurd hpos h.1), if_pos hpos]
  simp only [hatr]
  rw [if_pos hz]
  simp [send_order, hdry]

/-- C3 witness: twenty bars of range `1` closing at `100`, z-score `1.5`
(entry threshold `1.2`), no open position and dry run on: the report is
a sell at bid `100` with stop-loss `100 + stop_dist` and take-profit
`100 − 1.5 × stop_dist` for `stop_dist = max 1 (100 × 0.001)`, marked
successful and not dispatched. -/
theorem dry_run_entry_report_witness :
    (scalper_step sampleState (sampleInput 10000 (3/2) [])).orders =
      [{ req := { side := Side.sell,
                  volume := compute_lot sampleInfo 10000
                    (max 1 ((100:ℚ) * 0.001)),
                  price := 100,
                  sl := some ((100:ℚ) + max 1 ((100:ℚ) * 0.001)),
                  tp := some ((100:ℚ) - max 1 ((100:ℚ) * 0.001) * 1.5) },
           success := true, dispatched := false }] :=
  dry_run_entry_report sampleState (sampleInput 10000 (3/2) []) 10000 1
    rfl rfl (by norm_num [sampleInput, MAX_DAILY_LOSS]) (by decide)
    (by norm_num [safety_check, sampleInput, sampleState, sampleInfo,
      hourOf, TRADE_HOURS, SPREAD_MAX])
    (by decide) (by norm_num [sampleInput, Z_ENTER]) (by decide)
    (by norm_num [rollingMeanLast, sampleInput, sampleBars,
      List.map_replicate, List.sum_replicate])

lemma entry_exit_orders_time (st1 : ScalperState) (inp : IterInput) :
    (entry_exit st1 inp).orders ≠ [] →
    (entry_exit st1 inp).state.last_trade_time = some inp.now := by
  unfold entry_exit
  split_ifs <;> intro h <;> simp_all

lemma scalper_step_state_brokerOk (st : ScalperState) (inp : IterInput)
    (b : Bool) :
    (scalper_step st { inp with brokerOk := b }).state =
      (scalper_step st inp).state := by
  cases inp
  unfold scalper_step entry_exit
  dsimp only
  split_ifs <;> rfl

/-- C9: on every transition that sends an order the trade timestamp is
recorded as the cooldown anchor no matter what `send_order` returned:
whenever the step produced any order, `last_trade_time` is set to the
current time, and the broker's verdict (`brokerOk`, the value that
decides `send_order`'s return) has no effect on the resulting state. -/
theorem trade_timestamp_recorded_regardless (st : ScalperState)
    (inp : IterInput) :
    ((scalper_step st inp).orders ≠ [] →
      (scalper_step st inp).state.last_trade_time = some inp.now) ∧
    (∀ b : Bool, (scalper_step st { inp with brokerOk := b }).state =
      (scalper_step st inp).state) := by
  constructor
  · simp only [scalper_step]
    split_ifs <;> intro h
    · exact absurd rfl h
    · exact absurd rfl h
    · exact absurd rfl h
    · exact entry_exit_orders_time _ _ h
  · intro b
    exact scalper_step_state_brokerOk st inp b

/-- C9 witness: closing a long position (z-score `0`, below the exit
threshold) produces orders, and the state records the trade time
`36000`. -/
theorem trade_timestamp_recorded_regardless_witness :
    (scalper_step sampleState
      (sampleInput 10000 0 [⟨0, 2⟩])).state.last_trade_time = some 36000 :=
  (trade_timestamp_recorded_regardless sampleState
    (sampleInput 10000 0 [⟨0, 2⟩])).1
    (by
      rw [scalper_step_decision sampleState (sampleInput 10000 0 [⟨0, 2⟩])
        10000 rfl rfl (by norm_num [sampleInput, MAX_DAILY_LOSS]) (by decide)
        (by norm_num [safety_check, sampleInput, sampleState, sampleInfo,
          hourOf, TRADE_HOURS, SPREAD_MAX])]
      norm_num [entry_exit, sampleInput, Z_EXIT, send_order])

lemma daily_bookkeeping_loss_streak_le (st : ScalperState) (e : ℚ)
    (today : ℕ) :
    (daily_bookkeeping st e today).loss_streak ≤ st.loss_streak := by
  unfold daily_bookkeeping
  by_cases h1 : st.start_equity = none <;>
    by_cases h2 : today = st.day_start <;> simp [h1, h2]

lemma scalper_step_loss_streak_le (st : ScalperState) (inp : IterInput) :
    (scalper_step st inp).state.loss_streak ≤ st.loss_streak := by
  have hb := daily_bookkeeping_loss_streak_le st inp.equity (dateOf inp.now)
  simp only [scalper_step, entry_exit]
  split_ifs <;> simpa using hb

/-- C8: in every state reachable by the main loop `loss_streak` is `0`
(it starts at `0`, is only ever reset to `0`, and nothing increments
it), so with `MAX_LOSS_STREAK = 3 ≥ 1` the loss-streak breaker
condition never holds and no iteration from a reachable state ever ends
in the loss-streak lock. -/
theorem loss_streak_never_trips (st : ScalperState) (h : Reachable st) :
    st.loss_streak = 0 ∧ 1 ≤ MAX_LOSS_STREAK ∧
    ¬ (MAX_LOSS_STREAK ≤ st.loss_streak) ∧
    ∀ inp : IterInput,
      (scalper_step st inp).outcome ≠ Outcome.lossStreakLock := by
  have h0 : st.loss_streak = 0 := by
    induction h with
    | init d0 => rfl
    | step st' inp _ ih =>
        have := scalper_step_loss_streak_le st' inp
        omega
  refine ⟨h0, by decide, by rw [h0]; decide, ?_⟩
  intro inp
  have hb := daily_bookkeeping_loss_streak_le st inp.equity (dateOf inp.now)
  simp only [scalper_step]
  split_ifs with hc1 hc2 hc3
  · simp
  · exfalso
    rw [h0] at hb
    simp only [MAX_LOSS_STREAK] at hc2
    omega
  · simp
  · simp [entry_exit_outcome]

/-- C8 witness: the initial state (started on day `0`) is reachable, has
`loss_streak = 0`, and the breaker condition does not hold there. -/
theorem loss_streak_never_trips_witness :
    (initState 0).loss_streak = 0 ∧ 1 ≤ MAX_LOSS_STREAK ∧
    ¬ (MAX_LOSS_STREAK ≤ (initState 0).loss_streak) ∧
    ∀ inp : IterInput,
      (scalper_step (initState 0) inp).outcome ≠ Outcome.lossStreakLock :=
  loss_streak_never_trips (initState 0) (Reachable.init 0)

/-- C10: the cooldown gate compares only the seconds component of the
elapsed `timedelta` (`(now - lt) % 86400`, Python `timedelta.seconds`)
against `MIN_TRADE_INTERVAL`: whenever that component is small the gate
fails with the cooldown reason regardless of the true elapsed time, the
bar data and the quote; in particular with the last trade one day and
ten seconds in the past — far more than `MIN_TRADE_INTERVAL` seconds —
the gate still reports "cooldown", so passing the cooldown check is not
monotone in elapsed time. -/
theorem cooldown_uses_seconds_component :
    (∀ (now lt : ℕ) (vol : Option ℚ) (tick : Tick) (point : ℚ),
        TRADE_HOURS.1 ≤ hourOf now → hourOf now ≤ TRADE_HOURS.2 →
        (now - lt) % 86400 < MIN_TRADE_INTERVAL →
        safety_check (some lt) now vol tick point = (false, "cooldown")) ∧
    (∀ (vol : Option ℚ) (tick : Tick) (point : ℚ),
        MIN_TRADE_INTERVAL < 208800 - 122390 ∧
        safety_check (some 122390) 208800 vol tick point =
          (false, "cooldown")) := by
  have base : ∀ (now lt : ℕ) (vol : Option ℚ) (tick : Tick) (point : ℚ),
      TRADE_HOURS.1 ≤ hourOf now → hourOf now ≤ TRADE_HOURS.2 →
      (now - lt) % 86400 < MIN_TRADE_INTERVAL →
      safety_check (some lt) now vol tick point = (false, "cooldown") := by
    intro now lt vol tick point h1 h2 h3
    simp only [safety_check, not_and, not_le]
    rw [if_neg (by omega)]
    simp [h3]
  refine ⟨base, fun vol tick point => ⟨by decide, ?_⟩⟩
  exact base 208800 122390 vol tick point (by decide) (by decide) (by decide)

/-- C10 witness: at `now = 208800` (day 2, 10:00) with the last trade at
`122390` — one day and ten seconds earlier — the gate fails with the
cooldown reason even though far more than `MIN_TRADE_INTERVAL` seconds
have elapsed. -/
theorem cooldown_uses_seconds_component_witness :
    safety_check (some 122390) 208800 none ⟨100, 100⟩ 1 =
      (false, "cooldown") :=
  (cooldown_uses_seconds_component).1 208800 122390 none ⟨100, 100⟩ 1
    (by decide) (by decide) (by decide)

end MT5Scalper
